import Mathlib

/-!
Verification of the address-directory and forwarding-configuration engine
(`lib/api/addresses.js`).  Address strings are modelled as `List Char`;
the MongoDB `addresses` and `users` collections as lists of records; the
Redis forwarding counter as an explicit tracker outcome value.  Handler
control flow is translated branch by branch from the source file.
-/

set_option autoImplicit false

namespace Wildduck

/-- ASCII lower-casing of one character, written as an explicit 26-way match
so that its effect on every character class is open to case analysis. -/
def asciiLower (c : Char) : Char :=
  match c with
  | 'A' => 'a' | 'B' => 'b' | 'C' => 'c' | 'D' => 'd' | 'E' => 'e' | 'F' => 'f'
  | 'G' => 'g' | 'H' => 'h' | 'I' => 'i' | 'J' => 'j' | 'K' => 'k' | 'L' => 'l'
  | 'M' => 'm' | 'N' => 'n' | 'O' => 'o' | 'P' => 'p' | 'Q' => 'q' | 'R' => 'r'
  | 'S' => 's' | 'T' => 't' | 'U' => 'u' | 'V' => 'v' | 'W' => 'w' | 'X' => 'x'
  | 'Y' => 'y' | 'Z' => 'z'
  | c => c

/-- Modelled from the spec: `tools.normalizeAddress` (outside `src/`) performs
Unicode case folding on the full address string ("normalize Unicode
case-folding on the full string"); ASCII folding is the fragment the claims
exercise. -/
def normalizeAddress (s : List Char) : List Char := s.map asciiLower

/-- `address.substr(0, address.indexOf('@')).replace(/\./g, '') +
address.substr(address.indexOf('@'))` from the source.  When `'@'` is present
this is: local part with every `'.'` removed, then the rest of the string
from the first `'@'` on.  (When no `'@'` is present, JS `indexOf` is `-1` and
`substr(0,-1)`/`substr(-1)` yield the empty string and the last character.) -/
def addrview (s : List Char) : List Char :=
  if '@' ∈ s then
    ((s.takeWhile (fun c => c ≠ '@')).filter (fun c => c ≠ '.')) ++
      s.dropWhile (fun c => c ≠ '@')
  else
    s.drop (s.length - 1)

/-- The canonical lookup key of a raw address string: normalization followed
by the `addrview` computation, exactly as every handler computes it. -/
def canonicalKey (s : List Char) : List Char := addrview (normalizeAddress s)

/-- JS falsiness of an optional string value (`undefined` or `''`). -/
def jsFalsy (o : Option (List Char)) : Bool :=
  match o with
  | none => true
  | some s => s.isEmpty

/-- `.trim()`: strip leading and trailing whitespace. -/
def trimStr (s : List Char) : List Char :=
  ((s.dropWhile Char.isWhitespace).reverse.dropWhile Char.isWhitespace).reverse

/-- Joi `Joi.string().empty('').trim()` validation result: absent stays
absent, an all-whitespace value becomes absent, otherwise the trimmed text. -/
def joiStr (o : Option (List Char)) : Option (List Char) :=
  match o with
  | none => none
  | some s => if trimStr s = [] then none else some (trimStr s)

/-- First index of a character (length of the list when absent). -/
def idxOf (c : Char) : List Char → Nat
  | [] => 0
  | x :: xs => if x = c then 0 else idxOf c xs + 1

/-- Last index of a character, mirroring JS `lastIndexOf` for the case the
character is present (the only case the source consults it in). -/
def lastIdxOf (c : Char) (s : List Char) : Nat :=
  s.length - 1 - idxOf c s.reverse

/-- One step of the JS regular expression `/[^@]\*|\*[^@]/`: true when some
adjacent pair of characters is a non-`'@'` followed by `'*'` or a `'*'`
followed by a non-`'@'`. -/
def wildcardPairTest : List Char → Bool
  | a :: b :: rest =>
      ((a ≠ '@' && b = '*') || (a = '*' && b ≠ '@')) || wildcardPairTest (b :: rest)
  | _ => false

/-- The subject the source actually applies that regular expression to:
`result.value` is the validated parameter *object*, which the JS `RegExp.test`
coerces to the string `"[object Object]"`. -/
def resultValueToString : List Char := "[object Object]".toList

def startsWithCI (pre s : List Char) : Bool :=
  List.isPrefixOf pre (s.map asciiLower)

/-- `/^smtps?:/i.test(target)` -/
def isSmtpScheme (s : List Char) : Bool :=
  startsWithCI "smtp:".toList s || startsWithCI "smtps:".toList s

/-- `/^https?:/i.test(target)` -/
def isHttpScheme (s : List Char) : Bool :=
  startsWithCI "http:".toList s || startsWithCI "https:".toList s

/-! ## Data model -/

/-- One forwarding target descriptor as stored in `targets` (the per-target
`ObjectID` assigned at classification time is not modelled). -/
structure TargetDesc where
  ttype : String
  value : List Char
  user : Option Nat := none
deriving Repr, DecidableEq

/-- Autoreply fields; `none` models an absent key on the JS object (the
`end` key is called `endTime` because `end` is reserved in Lean). -/
structure AutoreplyFields where
  enabled : Option Bool := none
  start : Option Int := none
  endTime : Option Int := none
  subject : Option (List Char) := none
  text : Option (List Char) := none
  html : Option (List Char) := none
deriving Repr, DecidableEq

/-- A document of the `addresses` collection.  `user = some _` marks a User
Address, `targets = some _` a Forwarded Address. -/
structure AddressRecord where
  _id : Nat
  user : Option Nat := none
  address : List Char
  addrview : List Char
  targets : Option (List TargetDesc) := none
  forwards : Nat := 0
  autoreply : Option AutoreplyFields := none
  created : Nat := 0
deriving Repr, DecidableEq

/-- The projection of a `users` document the handlers read: `_id` and the
current default/main `address` (`[]` models a missing or empty value). -/
structure UserDoc where
  _id : Nat
  address : List Char
deriving Repr, DecidableEq

/-- The persistent store: the `users` and `addresses` collections. -/
structure DbState where
  users : List UserDoc
  addresses : List AddressRecord
deriving Repr, DecidableEq

/-- A handler response: `res.json({success, id?})`, `res.json({error, code?})`,
or a thrown TypeError (reachable in the delete handler when
`addressData.user` is absent). -/
inductive ApiResponse where
  | success (id : Option Nat)
  | apiError (code : Option String) (msg : String)
  | jsException
deriving Repr, DecidableEq

/-- Outcome of a `insertOne` call against the store: success, or an error
(which is how a late unique-index violation surfaces to the callback). -/
inductive InsertOutcome where
  | ok
  | failErr (msg : String)
deriving Repr, DecidableEq

/-! ## Store helpers -/

def findUser (st : DbState) (u : Nat) : Option UserDoc :=
  st.users.find? (fun x => x._id = u)

def findAddrById (st : DbState) (i : Nat) : Option AddressRecord :=
  st.addresses.find? (fun r => r._id = i)

def findAddrByView (st : DbState) (k : List Char) : Option AddressRecord :=
  st.addresses.find? (fun r => r.addrview = k)

/-- `findOneAndUpdate` on `users`: set the `address` field of the first
matching document. -/
def updateFirstUser : List UserDoc → Nat → List Char → List UserDoc
  | [], _, _ => []
  | x :: xs, u, a =>
      if x._id = u then { x with address := a } :: xs
      else x :: updateFirstUser xs u a

/-- `findOneAndUpdate` on `addresses`: apply `$set` (as a record function) to
the first matching document. -/
def updateFirstAddr : List AddressRecord → Nat → (AddressRecord → AddressRecord) → List AddressRecord
  | [], _, _ => []
  | r :: rs, i, f =>
      if r._id = i then f r :: rs
      else r :: updateFirstAddr rs i f

/-- `deleteOne` on `addresses`. -/
def deleteFirstAddr : List AddressRecord → Nat → List AddressRecord
  | [], _ => []
  | r :: rs, i => if r._id = i then rs else r :: deleteFirstAddr rs i

/-! ## Autoreply validation and merge -/

/-- Joi validation of the `autoreply` object in `PUT /addresses/forwarded`:
`enabled` has no default, the string fields go through `.empty('').trim()`,
the date fields pass through. -/
def validateAutoreplyPUT (raw : AutoreplyFields) : AutoreplyFields :=
  { enabled := raw.enabled
    start := raw.start
    endTime := raw.endTime
    subject := joiStr raw.subject
    text := joiStr raw.text
    html := joiStr raw.html }

/-- Joi validation of the `autoreply` object in `POST /addresses/forwarded`:
as in the update handler, but `enabled` defaults to `true`. -/
def validateAutoreplyPOST (raw : AutoreplyFields) : AutoreplyFields :=
  { validateAutoreplyPUT raw with enabled := some (raw.enabled.getD true) }

/-- The co-presence normalization the source performs on
`result.value.autoreply` (lines 1108–1132 and 1394–1413): a field that
validated to a falsy value but whose key is present on the raw request object
becomes the explicit empty string, and clearing `text` (`html`) also clears
`html` (`text`) when the latter is still falsy at that point. -/
def normalizeAutoreply (raw v : AutoreplyFields) : AutoreplyFields :=
  let v1 := if jsFalsy v.subject ∧ raw.subject.isSome then
              { v with subject := some [] } else v
  let v2 := if jsFalsy v1.text ∧ raw.text.isSome then
              let vt := { v1 with text := some ([] : List Char) }
              if jsFalsy vt.html then { vt with html := some [] } else vt
            else v1
  if jsFalsy v2.html ∧ raw.html.isSome then
    let vh := { v2 with html := some ([] : List Char) }
    if jsFalsy vh.text then { vh with text := some [] } else vh
  else v2

/-- `Object.keys(result.value.autoreply).forEach(key => updates['autoreply.' + key] = ...)`
followed by `$set`: every present (`some`) field of the patch overrides the
stored field, absent fields stay. -/
def applyAutoreplyUpdates (stored upd : AutoreplyFields) : AutoreplyFields :=
  { enabled := match upd.enabled with | some b => some b | none => stored.enabled
    start := match upd.start with | some d => some d | none => stored.start
    endTime := match upd.endTime with | some d => some d | none => stored.endTime
    subject := match upd.subject with | some s => some s | none => stored.subject
    text := match upd.text with | some s => some s | none => stored.text
    html := match upd.html with | some s => some s | none => stored.html }

/-! ## Target classification -/

/-- Outcome of the per-target classification loop: the classified list, or
the error raised at the first offending target. -/
inductive ClassifyResult where
  | ok (targets : List TargetDesc)
  | selfForward (t : List Char)
  | unknown (t : List Char)
deriving Repr, DecidableEq

/-- The classification loop shared by the forwarded create and update
handlers: a target that is no `smtp(s):`/`http(s):` URI but contains `'@'`
is a `mail` target and must not canonicalize to the owning address's own
`addrview`; scheme targets become `relay`/`http`; anything else is an
unknown target type. -/
def classifyTargets (ownView : List Char) : List (List Char) → ClassifyResult
  | [] => .ok []
  | t :: rest =>
      if ¬ isSmtpScheme t ∧ ¬ isHttpScheme t ∧ '@' ∈ t then
        let addrv := addrview (normalizeAddress t)
        if addrv = ownView then .selfForward t
        else
          match classifyTargets ownView rest with
          | .ok more => .ok ({ ttype := "mail", value := t } :: more)
          | other => other
      else if isSmtpScheme t then
        match classifyTargets ownView rest with
        | .ok more => .ok ({ ttype := "relay", value := t } :: more)
        | other => other
      else if isHttpScheme t then
        match classifyTargets ownView rest with
        | .ok more => .ok ({ ttype := "http", value := t } :: more)
        | other => other
      else .unknown t

/-- `resolveUsers`: one batched lookup that binds every `mail` target whose
cached `addrview` belongs to a user-owned record to that user. -/
def resolveUsersT (st : DbState) (targets : List TargetDesc) : List TargetDesc :=
  targets.map (fun t =>
    if t.ttype = "mail" then
      let addrv := addrview (normalizeAddress t.value)
      match st.addresses.find? (fun r => r.addrview = addrv ∧ r.user.isSome) with
      | some r => { t with user := r.user }
      | none => t
    else t)

/-! ## Handlers -/

/-- `POST /users/:user/addresses` (lines 229–394).  `newId`/`created` stand
for the generated `ObjectID` and `new Date()`; `insertRes` is the store's
answer to `insertOne` and `userUpdateOk` whether the best-effort
`findOneAndUpdate` on the owner succeeded (its error is ignored either way). -/
def postUserAddress (st : DbState) (user : Nat) (rawAddress : List Char)
    (main allowWildcard : Bool) (newId created : Nat)
    (insertRes : InsertOutcome) (userUpdateOk : Bool) : DbState × ApiResponse :=
  let address := normalizeAddress rawAddress
  if '+' ∈ address then
    (st, .apiError none "Address can not contain +")
  else if '*' ∈ address ∧ ¬ allowWildcard then
    (st, .apiError none "Address can not contain *")
  else if '*' ∈ address ∧
      (wildcardPairTest resultValueToString = true ∨
        idxOf '*' address ≠ lastIdxOf '*' address) then
    (st, .apiError none "Invalid wildcard address, use \"*@domain\" or \"user@*\"")
  else if '*' ∈ address ∧ main then
    (st, .apiError none "Main address can not contain *")
  else
    match findUser st user with
    | none => (st, .apiError (some "UserNotFound") "This user does not exist")
    | some userData =>
      match findAddrByView st (addrview address) with
      | some _ => (st, .apiError (some "AddressExists") "This email address already exists")
      | none =>
        match insertRes with
        | .failErr m => (st, .apiError (some "InternalDatabaseError") ("MongoDB Error: " ++ m))
        | .ok =>
          let newRec : AddressRecord :=
            { _id := newId, user := some user, address := address,
              addrview := addrview address, created := created }
          let st1 : DbState := { st with addresses := st.addresses ++ [newRec] }
          let st2 : DbState :=
            if (userData.address = [] ∨ main) ∧ userUpdateOk then
              { st1 with users := updateFirstUser st1.users user address }
            else st1
          (st2, .success (some newId))

/-- `PUT /users/:user/addresses/:address` (lines 704–840): promote an
address to the owner's default. -/
def putUserAddress (st : DbState) (user addrId : Nat) (main : Bool) :
    DbState × ApiResponse :=
  if ¬ main then (st, .apiError none "Cannot unset main status")
  else
    match findUser st user with
    | none => (st, .apiError (some "UserNotFound") "This user does not exist")
    | some userData =>
      match findAddrById st addrId with
      | none => (st, .apiError (some "AddressNotFound") "Invalid or unknown email address identifier")
      | some addressData =>
        if addressData.user = none ∨ addressData.user ≠ some user then
          (st, .apiError (some "AddressNotFound") "Invalid or unknown email address identifier")
        else if addressData.address = userData.address then
          (st, .apiError none "Selected address is already the main email address for the user")
        else if '*' ∈ addressData.address ∧ main then
          (st, .apiError none "Can not set wildcard address as default")
        else
          ({ st with users := updateFirstUser st.users user addressData.address },
            .success none)

/-- `DELETE /users/:user/addresses/:address` (lines 874–984).  When the
record has no `user` field the source dereferences
`addressData.user.toString()` and throws, modelled as `jsException`. -/
def delUserAddress (st : DbState) (user addrId : Nat) : DbState × ApiResponse :=
  match findUser st user with
  | none => (st, .apiError (some "UserNotFound") "This user does not exist")
  | some userData =>
    match findAddrById st addrId with
    | none => (st, .apiError (some "AddressNotFound") "Invalid or unknown email address identifier")
    | some addressData =>
      match addressData.user with
      | none => (st, .jsException)
      | some au =>
        if au ≠ user then
          (st, .apiError (some "AddressNotFound") "Invalid or unknown email address identifier")
        else if addressData.address = userData.address then
          (st, .apiError none "Trying to delete main address. Set a new main address first")
        else
          ({ st with addresses := deleteFirstAddr st.addresses addrId }, .success none)

/-- `POST /addresses/forwarded` (lines 1042–1285). -/
def postForwardedAddress (st : DbState) (rawAddress : List Char)
    (rawTargets : List (List Char)) (forwards : Nat) (allowWildcard : Bool)
    (autoreplyRaw : Option AutoreplyFields) (newId created : Nat)
    (insertRes : InsertOutcome) : DbState × ApiResponse :=
  let address := normalizeAddress rawAddress
  let addrView := addrview address
  let autoreplyFinal : AutoreplyFields :=
    match autoreplyRaw with
    | some raw => normalizeAutoreply raw (validateAutoreplyPOST raw)
    | none => { enabled := some false }
  match classifyTargets addrView rawTargets with
  | .unknown t =>
      (st, .apiError (some "InputValidationError")
        ("Unknown target type \"" ++ String.mk t ++ "\""))
  | .selfForward t =>
      (st, .apiError (some "InputValidationError")
        ("Can not forward to self \"" ++ String.mk t ++ "\""))
  | .ok targets =>
    if '+' ∈ address then
      (st, .apiError none "Address can not contain +")
    else if '*' ∈ address ∧ ¬ allowWildcard then
      (st, .apiError none "Address can not contain *")
    else if '*' ∈ address ∧
        (wildcardPairTest resultValueToString = true ∨
          idxOf '*' address ≠ lastIdxOf '*' address) then
      (st, .apiError none "Invalid wildcard address, use \"*@domain\" or \"user@*\"")
    else
      match findAddrByView st addrView with
      | some _ => (st, .apiError (some "AddressExists") "This email address already exists")
      | none =>
        match insertRes with
        | .failErr m => (st, .apiError (some "InternalDatabaseError") ("MongoDB Error: " ++ m))
        | .ok =>
          let targetsR := resolveUsersT st targets
          let newRec : AddressRecord :=
            { _id := newId, address := address, addrview := addrview address,
              targets := some targetsR, forwards := forwards,
              autoreply := some autoreplyFinal, created := created }
          ({ st with addresses := st.addresses ++ [newRec] }, .success (some newId))

/-- The `$set` document of `PUT /addresses/forwarded/:address` applied to the
found record: `forwards` and `targets` when present, and every present
autoreply field (dotted `autoreply.*` keys). -/
def applyAddressUpdates (r : AddressRecord) (uf : Option Nat)
    (ua : Option AutoreplyFields) (ut : Option (List TargetDesc)) : AddressRecord :=
  { r with
    forwards := uf.getD r.forwards
    autoreply := match ua with
      | some u => some (applyAutoreplyUpdates (r.autoreply.getD {}) u)
      | none => r.autoreply
    targets := match ut with | some t => some t | none => r.targets }

/-- `PUT /addresses/forwarded/:address` (lines 1333–1552). -/
def putForwardedAddress (st : DbState) (addrId : Nat)
    (rawTargets : Option (List (List Char))) (forwards : Option Nat)
    (autoreplyRaw : Option AutoreplyFields) : DbState × ApiResponse :=
  let updForwards : Option Nat :=
    match forwards with
    | some n => if n ≠ 0 then some n else none
    | none => none
  let updAutoreply : Option AutoreplyFields :=
    autoreplyRaw.map (fun raw => normalizeAutoreply raw (validateAutoreplyPUT raw))
  match findAddrById st addrId with
  | none => (st, .apiError (some "AddressNotFound") "Invalid or unknown email address identifier")
  | some addressData =>
    if addressData.targets = none ∨ addressData.user.isSome then
      (st, .apiError (some "AddressNotFound") "Invalid or unknown email address identifier")
    else
      match rawTargets with
      | none =>
          let newAddrs := updateFirstAddr st.addresses addressData._id
            (fun x => applyAddressUpdates x updForwards updAutoreply none)
          ({ st with addresses := newAddrs }, .success none)
      | some ts =>
        match classifyTargets addressData.addrview ts with
        | .unknown t =>
            (st, .apiError (some "InputValidationError")
              ("Unknown target type \"" ++ String.mk t ++ "\""))
        | .selfForward t =>
            (st, .apiError (some "InputValidationError")
              ("Can not forward to self \"" ++ String.mk t ++ "\""))
        | .ok targets =>
          let targetsR := resolveUsersT st targets
          let updTargets : Option (List TargetDesc) :=
            if targetsR.length ≠ 0 then some targetsR else none
          let newAddrs := updateFirstAddr st.addresses addressData._id
            (fun x => applyAddressUpdates x updForwards updAutoreply updTargets)
          ({ st with addresses := newAddrs }, .success none)

/-! ## Forwarding status (quota tracker read) -/

/-- Modelled from the spec: `consts.MAX_FORWARDS` lives in `lib/consts.js`,
outside `src/`; it is the platform-wide default daily forward limit (the API
documentation in the source shows `2000`). -/
def MAX_FORWARDS : Nat := 2000

/-- Outcome of the Redis `multi().get(...).ttl(...).exec` call:
`unavailable` when `exec` reports an error (the callback then sees no result
array), otherwise the counter value (`none` when the key is missing) and the
raw `TTL` reply (negative when the key is missing or has no expiry). -/
inductive RedisExec where
  | unavailable
  | ok (counter : Option Nat) (ttl : Int)
deriving Repr, DecidableEq

/-- The `limits.forwards.ttl` JSON value: a number, or `false` for
unbounded. -/
inductive TtlValue where
  | num (n : Int)
  | unbounded
deriving Repr, DecidableEq

structure ForwardsLimits where
  allowed : Nat
  used : Nat
  ttl : TtlValue
deriving Repr, DecidableEq

inductive ForwardedInfoResult where
  | notFound
  | info (id : Nat) (limits : ForwardsLimits)
deriving Repr, DecidableEq

/-- `GET /addresses/forwarded/:address` (lines 1715–1797), reduced to the
fields the claims concern (id and quota limits).  The identical counter
combination also appears in `GET /addresses/resolve/:address`
(lines 1939–1971). -/
def getForwardedAddress (st : DbState) (addrId : Nat) (redis : RedisExec)
    (maxForwardsCfg : Nat) : ForwardedInfoResult :=
  match findAddrById st addrId with
  | none => .notFound
  | some addressData =>
    if addressData.targets = none ∨ addressData.user.isSome then .notFound
    else
      let forwards :=
        if addressData.forwards ≠ 0 then addressData.forwards
        else if maxForwardsCfg ≠ 0 then maxForwardsCfg
        else MAX_FORWARDS
      let forwardsSent : Nat :=
        match redis with
        | .unavailable => 0
        | .ok c _ => c.getD 0
      let forwardsTtl : Int :=
        match redis with
        | .unavailable => 0
        | .ok _ t => t
      .info addressData._id
        { allowed := forwards, used := forwardsSent,
          ttl := if forwardsTtl ≥ 0 then .num forwardsTtl else .unbounded }

/-! ## Lemmas about the Canonicalizer -/

theorem asciiLower_eq_at_iff (c : Char) : asciiLower c = '@' ↔ c = '@' := by
  unfold asciiLower
  split <;> simp_all

theorem asciiLower_eq_dot_iff (c : Char) : asciiLower c = '.' ↔ c = '.' := by
  unfold asciiLower
  split <;> simp_all

theorem mem_at_normalizeAddress (s : List Char) (h : '@' ∈ s) :
    '@' ∈ normalizeAddress s := by
  have : asciiLower '@' = '@' := by decide
  exact this ▸ List.mem_map_of_mem asciiLower h

/-- With `'@'` present, the canonical key decomposes into the case-folded,
dot-stripped local part followed by the case-folded remainder from the first
`'@'` on. -/
theorem canonicalKey_decomp (s : List Char) (h : '@' ∈ s) :
    canonicalKey s =
      ((s.takeWhile (fun c => c ≠ '@')).filter (fun c => c ≠ '.')).map asciiLower ++
        (s.dropWhile (fun c => c ≠ '@')).map asciiLower := by
  have hat : '@' ∈ normalizeAddress s := mem_at_normalizeAddress s h
  have hpt : (fun c => decide (c ≠ '@')) ∘ asciiLower = fun c => decide (c ≠ '@') := by
    funext c
    simp [Function.comp, asciiLower_eq_at_iff]
  have hpd : (fun c => decide (c ≠ '.')) ∘ asciiLower = fun c => decide (c ≠ '.') := by
    funext c
    simp [Function.comp, asciiLower_eq_dot_iff]
  unfold canonicalKey addrview
  rw [if_pos hat]
  unfold normalizeAddress
  rw [List.takeWhile_map, List.dropWhile_map, List.filter_map, hpt, hpd]

/-! ## C2 -/

/-- C2: two raw address strings that differ only by `'.'` characters inserted
in the local part (same domain part from the first `'@'` on — so dots in the
domain are not folded — and equal locals once dots are removed) canonicalize
to the same key; and any two raw strings are treated as the same address by
the `addrview` lookup in every store state iff their canonical keys are
equal. -/
theorem C2_canonicalKey_dot_fold (a b : List Char)
    (ha : '@' ∈ a) (hb : '@' ∈ b)
    (hloc : (a.takeWhile (fun c => c ≠ '@')).filter (fun c => c ≠ '.') =
      (b.takeWhile (fun c => c ≠ '@')).filter (fun c => c ≠ '.'))
    (hdom : a.dropWhile (fun c => c ≠ '@') = b.dropWhile (fun c => c ≠ '@')) :
    canonicalKey a = canonicalKey b ∧
      ∀ (c d : List Char),
        (∀ st : DbState,
            findAddrByView st (canonicalKey c) = findAddrByView st (canonicalKey d)) ↔
          canonicalKey c = canonicalKey d := by
  constructor
  · rw [canonicalKey_decomp a ha, canonicalKey_decomp b hb, hloc, hdom]
  · intro c d
    constructor
    · intro hall
      by_contra hne
      have hc := hall
        { users := [],
          addresses := [{ _id := 0, address := canonicalKey c, addrview := canonicalKey c }] }
      simp [findAddrByView, List.find?, hne] at hc
    · intro he st
      rw [he]

/-- C2 witness at `"a.b@x"` / `"ab@x"`. -/
theorem C2_canonicalKey_dot_fold_witness :
    canonicalKey "a.b@x".toList = canonicalKey "ab@x".toList ∧
      ∀ (c d : List Char),
        (∀ st : DbState,
            findAddrByView st (canonicalKey c) = findAddrByView st (canonicalKey d)) ↔
          canonicalKey c = canonicalKey d :=
  C2_canonicalKey_dot_fold "a.b@x".toList "ab@x".toList
    (by decide) (by decide) (by decide) (by decide)

/-! ## C1 -/

/-- C1 (amended): creating an address (user or forwarded) whose canonical key
collides with an existing record's `addrview` fails with `AddressExists` and
leaves the store untouched when the engine's own pre-insert lookup finds the
collision; but an error reported by the store during `insertOne` itself — the
late uniqueness violation — is surfaced as a generic `InternalDatabaseError`,
not as `AddressExists`. -/
theorem C1_addressExists (st : DbState) (u : Nat) (raw : List Char)
    (main aw : Bool) (nid cr : Nat) (ir : InsertOutcome) (uok : Bool)
    (userData : UserDoc) (hplus : '+' ∉ normalizeAddress raw)
    (hstar : '*' ∉ normalizeAddress raw)
    (huser : findUser st u = some userData) :
    (∀ r, findAddrByView st (addrview (normalizeAddress raw)) = some r →
      postUserAddress st u raw main aw nid cr ir uok =
        (st, .apiError (some "AddressExists") "This email address already exists")) ∧
    (∀ ts fw ar tg r, classifyTargets (addrview (normalizeAddress raw)) ts = .ok tg →
      findAddrByView st (addrview (normalizeAddress raw)) = some r →
      postForwardedAddress st raw ts fw aw ar nid cr ir =
        (st, .apiError (some "AddressExists") "This email address already exists")) ∧
    (∀ m, findAddrByView st (addrview (normalizeAddress raw)) = none →
      postUserAddress st u raw main aw nid cr (.failErr m) uok =
        (st, .apiError (some "InternalDatabaseError") ("MongoDB Error: " ++ m))) := by
  refine ⟨?_, ?_, ?_⟩
  · intro r hfound
    simp only [postUserAddress, huser, hfound]
    rw [if_neg hplus, if_neg (fun h => hstar h.1), if_neg (fun h => hstar h.1),
      if_neg (fun h => hstar h.1)]
  · intro ts fw ar tg r hcl hfound
    simp only [postForwardedAddress, hcl, hfound]
    rw [if_neg hplus, if_neg (fun h => hstar h.1), if_neg (fun h => hstar h.1)]
  · intro m hnone
    simp only [postUserAddress, huser, hnone]
    rw [if_neg hplus, if_neg (fun h => hstar h.1), if_neg (fun h => hstar h.1),
      if_neg (fun h => hstar h.1)]

/-- A store holding one user (no default yet) and the user address
`"a.b@x"`, whose canonical key is `"ab@x"`. -/
def stOneAddr : DbState :=
  { users := [{ _id := 1, address := [] }],
    addresses := [{ _id := 9, user := some 1, address := "a.b@x".toList, addrview := "ab@x".toList }] }

/-- A store holding one user with no addresses. -/
def stNoAddr : DbState :=
  { users := [{ _id := 1, address := [] }], addresses := [] }

/-- C1 witness: with `"a.b@x"` already registered, creating `"ab@x"` (user
path, forwarded path) hits the pre-insert check; with an empty registry, a
failing insert yields `InternalDatabaseError`. -/
theorem C1_addressExists_witness :
    (postUserAddress stOneAddr 1 "ab@x".toList false false 5 0 .ok true =
      (stOneAddr, .apiError (some "AddressExists") "This email address already exists")) ∧
    (postForwardedAddress stOneAddr "ab@x".toList [] 0 false none 5 0 .ok =
      (stOneAddr, .apiError (some "AddressExists") "This email address already exists")) ∧
    (postUserAddress stNoAddr 1 "ab@x".toList false false 5 0
        (.failErr "E11000 duplicate key error") true =
      (stNoAddr,
        .apiError (some "InternalDatabaseError") "MongoDB Error: E11000 duplicate key error")) := by
  refine ⟨?_, ?_, ?_⟩
  · exact (C1_addressExists stOneAddr 1 "ab@x".toList false false 5 0 .ok true
      { _id := 1, address := [] } (by decide) (by decide) (by decide)).1
      { _id := 9, user := some 1, address := "a.b@x".toList, addrview := "ab@x".toList }
      (by decide)
  · exact (C1_addressExists stOneAddr 1 "ab@x".toList false false 5 0 .ok true
      { _id := 1, address := [] } (by decide) (by decide) (by decide)).2.1 [] 0 none []
      { _id := 9, user := some 1, address := "a.b@x".toList, addrview := "ab@x".toList }
      (by decide) (by decide)
  · exact (C1_addressExists stNoAddr 1 "ab@x".toList false false 5 0
      (.failErr "E11000 duplicate key error") true
      { _id := 1, address := [] } (by decide) (by decide) (by decide)).2.2 _ (by decide)

/-- C1 counterexample to the claim as stated: a late uniqueness violation
reported by `insertOne` (duplicate-key store error) is answered with code
`InternalDatabaseError`, not `AddressExists`. -/
theorem C1_addressExists_counterexample :
    (postUserAddress stNoAddr 1 "ab@x".toList false false 5 0
        (.failErr "E11000 duplicate key error") true).2 =
      .apiError (some "InternalDatabaseError") "MongoDB Error: E11000 duplicate key error" ∧
    (postUserAddress stNoAddr 1 "ab@x".toList false false 5 0
        (.failErr "E11000 duplicate key error") true).2 ≠
      .apiError (some "AddressExists") "This email address already exists" := by
  decide

/-! ## C3 -/

/-- If every target is classifiable (a scheme target or a mail target) and
some mail target canonicalizes to the owning address's own key, the
classification loop stops at a self-forward error. -/
theorem classifyTargets_fires_self (own : List Char) (ts : List (List Char))
    (hall : ∀ t ∈ ts, isSmtpScheme t = true ∨ isHttpScheme t = true ∨ '@' ∈ t)
    (hself : ∃ t ∈ ts, ¬ isSmtpScheme t = true ∧ ¬ isHttpScheme t = true ∧ '@' ∈ t ∧
      addrview (normalizeAddress t) = own) :
    ∃ t ∈ ts, classifyTargets own ts = .selfForward t := by
  induction ts with
  | nil => simp at hself
  | cons t rest ih =>
    by_cases hm : ¬ isSmtpScheme t = true ∧ ¬ isHttpScheme t = true ∧ '@' ∈ t
    · by_cases he : addrview (normalizeAddress t) = own
      · exact ⟨t, List.mem_cons_self t rest, by simp [classifyTargets, hm, he]⟩
      · have hrest : ∃ x ∈ rest, ¬ isSmtpScheme x = true ∧ ¬ isHttpScheme x = true ∧
            '@' ∈ x ∧ addrview (normalizeAddress x) = own := by
          obtain ⟨x, hx, hxp⟩ := hself
          rcases List.mem_cons.mp hx with hx1 | hx2
          · exact absurd (hx1 ▸ hxp).2.2.2 he
          · exact ⟨x, hx2, hxp⟩
        obtain ⟨x, hx, hcl⟩ := ih (fun y hy => hall y (List.mem_cons_of_mem t hy)) hrest
        refine ⟨x, List.mem_cons_of_mem t hx, ?_⟩
        simp [classifyTargets, hm, he, hcl]
    · have hsch : isSmtpScheme t = true ∨ isHttpScheme t = true := by
        rcases hall t (List.mem_cons_self t rest) with h | h | h
        · exact Or.inl h
        · exact Or.inr h
        · by_cases h1 : isSmtpScheme t = true
          · exact Or.inl h1
          · by_cases h2 : isHttpScheme t = true
            · exact Or.inr h2
            · exact absurd ⟨h1, h2, h⟩ hm
      have hrest : ∃ x ∈ rest, ¬ isSmtpScheme x = true ∧ ¬ isHttpScheme x = true ∧
          '@' ∈ x ∧ addrview (normalizeAddress x) = own := by
        obtain ⟨x, hx, hxp⟩ := hself
        rcases List.mem_cons.mp hx with hx1 | hx2
        · subst hx1
          exact absurd ⟨hxp.1, hxp.2.1, hxp.2.2.1⟩ hm
        · exact ⟨x, hx2, hxp⟩
      obtain ⟨x, hx, hcl⟩ := ih (fun y hy => hall y (List.mem_cons_of_mem t hy)) hrest
      refine ⟨x, List.mem_cons_of_mem t hx, ?_⟩
      rcases hsch with h | h
      · simp [classifyTargets, hm, h, hcl]
      · simp [classifyTargets, hm, h, hcl]

/-- C3: for forwarded-address creation and for a target-list update, if every
target is classifiable and some mail-kind target's canonical key equals the
canonical key of the address being created/updated (dot-folding included),
the operation answers the self-forward error and does not mutate the store. -/
theorem C3_selfForward (st : DbState) (ts : List (List Char))
    (hall : ∀ t ∈ ts, isSmtpScheme t = true ∨ isHttpScheme t = true ∨ '@' ∈ t) :
    (∀ (raw : List Char) (fw : Nat) (aw : Bool) (ar : Option AutoreplyFields)
        (nid cr : Nat) (ir : InsertOutcome),
      (∃ t ∈ ts, ¬ isSmtpScheme t = true ∧ ¬ isHttpScheme t = true ∧ '@' ∈ t ∧
        addrview (normalizeAddress t) = addrview (normalizeAddress raw)) →
      ∃ t, postForwardedAddress st raw ts fw aw ar nid cr ir =
        (st, .apiError (some "InputValidationError")
          ("Can not forward to self \"" ++ String.mk t ++ "\""))) ∧
    (∀ (addrId : Nat) (fw : Option Nat) (ar : Option AutoreplyFields) (rec : AddressRecord),
      findAddrById st addrId = some rec →
      rec.targets ≠ none → rec.user = none →
      (∃ t ∈ ts, ¬ isSmtpScheme t = true ∧ ¬ isHttpScheme t = true ∧ '@' ∈ t ∧
        addrview (normalizeAddress t) = rec.addrview) →
      ∃ t, putForwardedAddress st addrId (some ts) fw ar =
        (st, .apiError (some "InputValidationError")
          ("Can not forward to self \"" ++ String.mk t ++ "\""))) := by
  constructor
  · intro raw fw aw ar nid cr ir hself
    obtain ⟨t, _, hcl⟩ := classifyTargets_fires_self _ ts hall hself
    exact ⟨t, by simp only [postForwardedAddress, hcl]⟩
  · intro addrId fw ar rec hrec ht hu hself
    obtain ⟨t, _, hcl⟩ := classifyTargets_fires_self _ ts hall hself
    refine ⟨t, ?_⟩
    simp only [putForwardedAddress, hrec, hcl]
    rw [if_neg (by simp [ht, hu])]

/-- A store with one forwarded address `"user@x"`. -/
def stFwd : DbState :=
  { users := [],
    addresses := [{ _id := 7, user := none, address := "user@x".toList, addrview := "user@x".toList, targets := some [], forwards := 5 }] }

/-- C3 witness: creating `"user@x"` forwarding to `["use.r@x"]`, and updating
the stored forwarded address `"user@x"` with targets `["use.r@x"]`, both stop
at the self-forward error. -/
theorem C3_selfForward_witness :
    (∃ t, postForwardedAddress stFwd "user@x".toList ["use.r@x".toList] 0 false none 8 0 .ok =
      (stFwd, .apiError (some "InputValidationError")
        ("Can not forward to self \"" ++ String.mk t ++ "\""))) ∧
    (∃ t, putForwardedAddress stFwd 7 (some ["use.r@x".toList]) none none =
      (stFwd, .apiError (some "InputValidationError")
        ("Can not forward to self \"" ++ String.mk t ++ "\""))) := by
  constructor
  · exact (C3_selfForward stFwd ["use.r@x".toList] (by decide)).1
      "user@x".toList 0 false none 8 0 .ok (by decide)
  · exact (C3_selfForward stFwd ["use.r@x".toList] (by decide)).2
      7 none none
      { _id := 7, user := none, address := "user@x".toList, addrview := "user@x".toList, targets := some [], forwards := 5 }
      (by decide) (by decide) (by decide) (by decide)

/-! ## C4 -/

/-- C4: evaluation of the creation-path wildcard validation.  `"*@example.com"`
and `"user@*"` are accepted when `allowWildcard` is set and rejected otherwise,
and the double-star forms `"a*@x*"` and `"*@*"` are rejected regardless of the
flag — but the malformed form `"*a@x"` is ACCEPTED when `allowWildcard` is set
(user path and forwarded path alike), because the source tests the
malformed-wildcard regular expression against `result.value` (the validated
parameter object, which stringifies to `"[object Object]"` and so never
matches) instead of against the address, so only the several-stars case of
that branch can ever fire. -/
theorem C4_wildcard_eval :
    ((postUserAddress stNoAddr 1 "*@example.com".toList false true 5 0 .ok true).2 =
        .success (some 5)) ∧
    ((postUserAddress stNoAddr 1 "user@*".toList false true 5 0 .ok true).2 =
        .success (some 5)) ∧
    ((postUserAddress stNoAddr 1 "*@example.com".toList false false 5 0 .ok true).2 =
        .apiError none "Address can not contain *") ∧
    ((postUserAddress stNoAddr 1 "user@*".toList false false 5 0 .ok true).2 =
        .apiError none "Address can not contain *") ∧
    ((postUserAddress stNoAddr 1 "a*@x*".toList false true 5 0 .ok true).2 =
        .apiError none "Invalid wildcard address, use \"*@domain\" or \"user@*\"") ∧
    ((postUserAddress stNoAddr 1 "a*@x*".toList false false 5 0 .ok true).2 =
        .apiError none "Address can not contain *") ∧
    ((postUserAddress stNoAddr 1 "*@*".toList false true 5 0 .ok true).2 =
        .apiError none "Invalid wildcard address, use \"*@domain\" or \"user@*\"") ∧
    ((postUserAddress stNoAddr 1 "*@*".toList false false 5 0 .ok true).2 =
        .apiError none "Address can not contain *") ∧
    ((postUserAddress stNoAddr 1 "*a@x".toList false false 5 0 .ok true).2 =
        .apiError none "Address can not contain *") ∧
    ((postUserAddress stNoAddr 1 "*a@x".toList false true 5 0 .ok true).2 =
        .success (some 5)) ∧
    ((postForwardedAddress stNoAddr "*a@x".toList ["t@y".toList] 0 true none 5 0 .ok).2 =
        .success (some 5)) := by
  decide

/-! ## C5 -/

theorem find?_updateFirstUser (us : List UserDoc) (u : Nat) (a : List Char) :
    (updateFirstUser us u a).find? (fun x => x._id = u) =
      (us.find? (fun x => x._id = u)).map (fun x => { x with address := a }) := by
  induction us with
  | nil => rfl
  | cons x xs ih =>
    by_cases h : x._id = u
    · simp [updateFirstUser, h, List.find?]
    · simp [updateFirstUser, h, List.find?, ih]

theorem find?_deleteFirstAddr (l : List AddressRecord) (i : Nat)
    (h : l.countP (fun r => r._id = i) ≤ 1) :
    (deleteFirstAddr l i).find? (fun r => r._id = i) = none := by
  induction l with
  | nil => rfl
  | cons r rs ih =>
    have hcc : (r :: rs).countP (fun x => x._id = i) =
        rs.countP (fun x => x._id = i) + (if r._id = i then 1 else 0) := by
      simp [List.countP_cons]
    by_cases hr : r._id = i
    · have hz : rs.countP (fun x => x._id = i) = 0 := by
        rw [hcc, if_pos hr] at h
        omega
      have hnone : rs.find? (fun x => x._id = i) = none := by
        rw [List.find?_eq_none]
        intro x hx
        simpa using List.countP_eq_zero.mp hz x hx
      simpa [deleteFirstAddr, hr] using hnone
    · have h' : rs.countP (fun x => x._id = i) ≤ 1 := by
        rw [hcc, if_neg hr] at h
        omega
      simp [deleteFirstAddr, hr, List.find?, ih h']

/-- C5: deleting the owner's current default address fails with the
cannot-delete-main error and leaves the store untouched; and after promoting
another address to default, deleting the previously-default address succeeds
and removes the record. -/
theorem C5_delete_default (st : DbState) (u aId : Nat) (usr : UserDoc)
    (rA : AddressRecord)
    (huser : findUser st u = some usr)
    (hA : findAddrById st aId = some rA)
    (hAu : rA.user = some u)
    (hAmain : rA.address = usr.address) :
    (delUserAddress st u aId =
      (st, .apiError none "Trying to delete main address. Set a new main address first")) ∧
    (∀ (bId : Nat) (rB : AddressRecord),
      findAddrById st bId = some rB →
      rB.user = some u →
      rB.address ≠ usr.address →
      '*' ∉ rB.address →
      st.addresses.countP (fun r => r._id = aId) ≤ 1 →
      (putUserAddress st u bId true).2 = .success none ∧
      (delUserAddress (putUserAddress st u bId true).1 u aId).2 = .success none ∧
      findAddrById (delUserAddress (putUserAddress st u bId true).1 u aId).1 aId = none) := by
  constructor
  · simp only [delUserAddress, huser, hA, hAu]
    rw [if_neg (by simp), if_pos hAmain]
  · intro bId rB hB hBu hBne hBs hcnt
    have hput : putUserAddress st u bId true =
        ({ st with users := updateFirstUser st.users u rB.address }, .success none) := by
      simp only [putUserAddress, huser, hB]
      rw [if_neg (by simp), if_neg (by simp [hBu]), if_neg hBne,
        if_neg (fun hx => hBs hx.1)]
    have huser1 : findUser { st with users := updateFirstUser st.users u rB.address } u =
        some { usr with address := rB.address } := by
      simp only [findUser, find?_updateFirstUser]
      rw [show st.users.find? (fun x => x._id = u) = some usr from huser]
      rfl
    have hA1 : findAddrById { st with users := updateFirstUser st.users u rB.address } aId =
        some rA := hA
    have hne2 : ¬ rA.address = rB.address := fun hx => hBne (hx ▸ hAmain)
    rw [hput]
    refine ⟨rfl, ?_, ?_⟩
    · simp only [delUserAddress, huser1, hA1, hAu]
      rw [if_neg (by simp), if_neg (by simpa using hne2)]
    · simp only [delUserAddress, huser1, hA1, hAu]
      rw [if_neg (by simp), if_neg (by simpa using hne2)]
      exact find?_deleteFirstAddr st.addresses aId hcnt

/-- A store with one user whose default is `"a@x"` and two of their
addresses, `"a@x"` (the default, id 10) and `"b@x"` (id 11). -/
def stTwoAddr : DbState :=
  { users := [{ _id := 1, address := "a@x".toList }],
    addresses := [{ _id := 10, user := some 1, address := "a@x".toList, addrview := "a@x".toList }, { _id := 11, user := some 1, address := "b@x".toList, addrview := "b@x".toList }] }

/-- C5 witness: deleting the default `"a@x"` fails; promoting `"b@x"` and then
deleting `"a@x"` succeeds and removes the record. -/
theorem C5_delete_default_witness :
    (delUserAddress stTwoAddr 1 10 =
      (stTwoAddr, .apiError none "Trying to delete main address. Set a new main address first")) ∧
    (putUserAddress stTwoAddr 1 11 true).2 = .success none ∧
    (delUserAddress (putUserAddress stTwoAddr 1 11 true).1 1 10).2 = .success none ∧
    findAddrById (delUserAddress (putUserAddress stTwoAddr 1 11 true).1 1 10).1 10 = none := by
  have h := C5_delete_default stTwoAddr 1 10 { _id := 1, address := "a@x".toList }
    { _id := 10, user := some 1, address := "a@x".toList, addrview := "a@x".toList }
    (by decide) (by decide) (by decide) (by decide)
  have h2 := h.2 11
    { _id := 11, user := some 1, address := "b@x".toList, addrview := "b@x".toList }
    (by decide) (by decide) (by decide) (by decide) (by decide)
  exact ⟨h.1, h2.1, h2.2.1, h2.2.2⟩

/-! ## C6 -/

/-- C6 (amended): promoting an address that is already the owner's current
default is a no-op on the store, but the handler answers with the error
message `'Selected address is already the main email address for the user'`
(an `error` response without a code), not with a success response. -/
theorem C6_promote_already_main (st : DbState) (u aId : Nat) (usr : UserDoc)
    (rec : AddressRecord)
    (huser : findUser st u = some usr)
    (hrec : findAddrById st aId = some rec)
    (hru : rec.user = some u)
    (hmain : rec.address = usr.address) :
    putUserAddress st u aId true =
      (st, .apiError none "Selected address is already the main email address for the user") := by
  simp only [putUserAddress, huser, hrec]
  rw [if_neg (by simp), if_neg (by simp [hru]), if_pos hmain]

/-- C6 witness: applying the amended theorem at the default address of
`stTwoAddr`. -/
theorem C6_promote_already_main_witness :
    putUserAddress stTwoAddr 1 10 true =
      (stTwoAddr, .apiError none "Selected address is already the main email address for the user") :=
  C6_promote_already_main stTwoAddr 1 10 { _id := 1, address := "a@x".toList }
    { _id := 10, user := some 1, address := "a@x".toList, addrview := "a@x".toList }
    (by decide) (by decide) (by decide) (by decide)

/-- C6 counterexample to the claim as stated: the already-default promotion
does NOT report success — the response is an error object, not a success
one (though the store is indeed left unchanged). -/
theorem C6_promote_already_main_counterexample :
    (putUserAddress stTwoAddr 1 10 true).1 = stTwoAddr ∧
    (putUserAddress stTwoAddr 1 10 true).2 ≠ .success none ∧
    (putUserAddress stTwoAddr 1 10 true).2 =
      .apiError none "Selected address is already the main email address for the user" := by
  decide

/-! ## C7 -/

theorem find?_updateFirstAddr (l : List AddressRecord) (i : Nat)
    (f : AddressRecord → AddressRecord) (hf : ∀ r, (f r)._id = r._id) :
    (updateFirstAddr l i f).find? (fun r => r._id = i) =
      (l.find? (fun r => r._id = i)).map f := by
  induction l with
  | nil => rfl
  | cons r rs ih =>
    by_cases h : r._id = i
    · simp [updateFirstAddr, h, List.find?, hf r]
    · simp [updateFirstAddr, h, List.find?, ih]

/-- Clearing `text` (validated away, raw key present) with `html` untouched
and absent sets both to the explicit empty string. -/
theorem normalizeAutoreply_clear_text (raw v : AutoreplyFields)
    (hvt : v.text = none) (hrt : raw.text.isSome = true)
    (hvh : v.html = none) (hrh : raw.html = none) :
    (normalizeAutoreply raw v).text = some [] ∧
      (normalizeAutoreply raw v).html = some [] := by
  simp only [normalizeAutoreply]
  split_ifs <;> simp_all [jsFalsy]

/-- Clearing `html` (validated away, raw key present) with `text` untouched
and absent sets both to the explicit empty string. -/
theorem normalizeAutoreply_clear_html (raw v : AutoreplyFields)
    (hvh : v.html = none) (hrh : raw.html.isSome = true)
    (hvt : v.text = none) (hrt : raw.text = none) :
    (normalizeAutoreply raw v).html = some [] ∧
      (normalizeAutoreply raw v).text = some [] := by
  simp only [normalizeAutoreply]
  split_ifs <;> simp_all [jsFalsy]

/-- When neither the `text` nor the `html` key is present on the raw patch,
normalization does not touch either field. -/
theorem normalizeAutoreply_no_text_html (raw v : AutoreplyFields)
    (hrt : raw.text = none) (hrh : raw.html = none) :
    (normalizeAutoreply raw v).text = v.text ∧
      (normalizeAutoreply raw v).html = v.html := by
  simp only [normalizeAutoreply]
  split_ifs <;> simp_all [jsFalsy]

/-- The record update performed by `PUT /addresses/forwarded/:address` when
the patch carries only an `autoreply` object. -/
def putFwdAutoreplyOnly (raw : AutoreplyFields) (x : AddressRecord) : AddressRecord :=
  applyAddressUpdates x none (some (normalizeAutoreply raw (validateAutoreplyPUT raw))) none

/-- C7: autoreply partial updates keep `text`/`html` co-present.  On the
update path, patching `text` to an explicit empty value while `html` is not
being set stores the empty string in both fields of the record (and the
symmetric statement for `html`); the creation-path normalization produces the
same co-present pair; and a patch that only sets `subject` leaves the stored
`text` and `html` unchanged. -/
theorem C7_autoreply_copresence (st : DbState) (aId : Nat)
    (raw : AutoreplyFields) (s : List Char) (rec : AddressRecord)
    (hrec : findAddrById st aId = some rec)
    (ht : rec.targets ≠ none) (hu : rec.user = none) :
    (raw.text = some s → trimStr s = [] → raw.html = none →
      (putForwardedAddress st aId none none (some raw)).2 = .success none ∧
      (findAddrById (putForwardedAddress st aId none none (some raw)).1 aId).map
          (fun r => (r.autoreply.map (fun a => a.text), r.autoreply.map (fun a => a.html))) =
        some (some (some []), some (some []))) ∧
    (raw.html = some s → trimStr s = [] → raw.text = none →
      (putForwardedAddress st aId none none (some raw)).2 = .success none ∧
      (findAddrById (putForwardedAddress st aId none none (some raw)).1 aId).map
          (fun r => (r.autoreply.map (fun a => a.text), r.autoreply.map (fun a => a.html))) =
        some (some (some []), some (some []))) ∧
    (raw.text = some s → trimStr s = [] → raw.html = none →
      (normalizeAutoreply raw (validateAutoreplyPOST raw)).text = some [] ∧
      (normalizeAutoreply raw (validateAutoreplyPOST raw)).html = some []) ∧
    (∀ (subj : List Char) (stored : AutoreplyFields),
      (applyAutoreplyUpdates stored
          (normalizeAutoreply { subject := some subj }
            (validateAutoreplyPUT { subject := some subj }))).text = stored.text ∧
      (applyAutoreplyUpdates stored
          (normalizeAutoreply { subject := some subj }
            (validateAutoreplyPUT { subject := some subj }))).html = stored.html) := by
  have hguard : ¬ (rec.targets = none ∨ rec.user.isSome = true) := by simp [ht, hu]
  have hid : rec._id = aId := by simpa using List.find?_some hrec
  have hres : putForwardedAddress st aId none none (some raw) =
      ({ st with addresses := updateFirstAddr st.addresses rec._id (putFwdAutoreplyOnly raw) }, .success none) := by
    simp only [putForwardedAddress, hrec]
    rw [if_neg hguard]
    rfl
  have hfind : findAddrById (putForwardedAddress st aId none none (some raw)).1 aId =
      some (putFwdAutoreplyOnly raw rec) := by
    rw [hres]
    simp only [findAddrById]
    rw [hid, find?_updateFirstAddr st.addresses aId (putFwdAutoreplyOnly raw) (fun r => rfl)]
    rw [show st.addresses.find? (fun r => r._id = aId) = some rec from hrec]
    rfl
  refine ⟨?_, ?_, ?_, ?_⟩
  · intro h1 h2 h3
    have hvt : (validateAutoreplyPUT raw).text = none := by
      simp [validateAutoreplyPUT, joiStr, h1, h2]
    have hvh : (validateAutoreplyPUT raw).html = none := by
      simp [validateAutoreplyPUT, joiStr, h3]
    have hcl := normalizeAutoreply_clear_text raw (validateAutoreplyPUT raw)
      hvt (by simp [h1]) hvh h3
    refine ⟨by rw [hres], ?_⟩
    rw [hfind]
    simp [putFwdAutoreplyOnly, applyAddressUpdates, applyAutoreplyUpdates, hcl.1, hcl.2]
  · intro h1 h2 h3
    have hvh : (validateAutoreplyPUT raw).html = none := by
      simp [validateAutoreplyPUT, joiStr, h1, h2]
    have hvt : (validateAutoreplyPUT raw).text = none := by
      simp [validateAutoreplyPUT, joiStr, h3]
    have hcl := normalizeAutoreply_clear_html raw (validateAutoreplyPUT raw)
      hvh (by simp [h1]) hvt h3
    refine ⟨by rw [hres], ?_⟩
    rw [hfind]
    simp [putFwdAutoreplyOnly, applyAddressUpdates, applyAutoreplyUpdates, hcl.1, hcl.2]
  · intro h1 h2 h3
    have hvt : (validateAutoreplyPOST raw).text = none := by
      simp [validateAutoreplyPOST, validateAutoreplyPUT, joiStr, h1, h2]
    have hvh : (validateAutoreplyPOST raw).html = none := by
      simp [validateAutoreplyPOST, validateAutoreplyPUT, joiStr, h3]
    exact normalizeAutoreply_clear_text raw (validateAutoreplyPOST raw)
      hvt (by simp [h1]) hvh h3
  · intro subj stored
    have hn := normalizeAutoreply_no_text_html
      { subject := some subj } (validateAutoreplyPUT { subject := some subj }) rfl rfl
    have hvt : (validateAutoreplyPUT { subject := some subj }).text = none := rfl
    have hvh : (validateAutoreplyPUT { subject := some subj }).html = none := rfl
    constructor
    · simp [applyAutoreplyUpdates, hn.1, hvt]
    · simp [applyAutoreplyUpdates, hn.2, hvh]

/-- A patch that sets `text` to the explicit empty value and nothing else. -/
def rawTextClear : AutoreplyFields := { text := some [] }

/-- A patch that sets `html` to the explicit empty value and nothing else. -/
def rawHtmlClear : AutoreplyFields := { html := some [] }

/-- A stored autoreply with non-empty `text` and `html`. -/
def storedC7 : AutoreplyFields :=
  { enabled := some true, subject := some "s".toList, text := some "T".toList, html := some "H".toList }

/-- C7 witness: on the forwarded record of `stFwd`, clearing `text` (resp.
`html`) stores the empty string in both stored fields; the creation-path
normalization does the same; a subject-only patch leaves `storedC7`'s
`text`/`html` alone. -/
theorem C7_autoreply_copresence_witness :
    ((putForwardedAddress stFwd 7 none none (some rawTextClear)).2 = .success none ∧
      (findAddrById (putForwardedAddress stFwd 7 none none (some rawTextClear)).1 7).map
          (fun r => (r.autoreply.map (fun a => a.text), r.autoreply.map (fun a => a.html))) =
        some (some (some []), some (some []))) ∧
    ((putForwardedAddress stFwd 7 none none (some rawHtmlClear)).2 = .success none ∧
      (findAddrById (putForwardedAddress stFwd 7 none none (some rawHtmlClear)).1 7).map
          (fun r => (r.autoreply.map (fun a => a.text), r.autoreply.map (fun a => a.html))) =
        some (some (some []), some (some []))) ∧
    ((normalizeAutoreply rawTextClear (validateAutoreplyPOST rawTextClear)).text = some [] ∧
      (normalizeAutoreply rawTextClear (validateAutoreplyPOST rawTextClear)).html = some []) ∧
    ((applyAutoreplyUpdates storedC7
        (normalizeAutoreply { subject := some "Hi".toList }
          (validateAutoreplyPUT { subject := some "Hi".toList }))).text = storedC7.text ∧
      (applyAutoreplyUpdates storedC7
        (normalizeAutoreply { subject := some "Hi".toList }
          (validateAutoreplyPUT { subject := some "Hi".toList }))).html = storedC7.html) := by
  have hA := C7_autoreply_copresence stFwd 7 rawTextClear [] { _id := 7, user := none, address := "user@x".toList, addrview := "user@x".toList, targets := some [], forwards := 5 }
    (by decide) (by decide) (by decide)
  have hB := C7_autoreply_copresence stFwd 7 rawHtmlClear [] { _id := 7, user := none, address := "user@x".toList, addrview := "user@x".toList, targets := some [], forwards := 5 }
    (by decide) (by decide) (by decide)
  exact ⟨hA.1 rfl rfl rfl, hB.2.1 rfl rfl rfl, hA.2.2.1 rfl rfl rfl,
    hA.2.2.2 "Hi".toList storedC7⟩

/-! ## C8 -/

/-- C8 (amended): reading the forwarding status of an existing forwarded
record never fails because of the quota tracker — the call yields `info`
whatever the tracker returns, with `allowed` equal to the record's own quota
when non-zero and to the platform default otherwise.  When the tracker holds
no counter (GET null, negative TTL reply) usage is `0` with the unbounded
ttl marker; but when the tracker is unavailable the call succeeds with usage
`0` and a ttl of `0` — a number, not the unbounded marker. -/
theorem C8_forwarding_status (st : DbState) (aId : Nat) (rec : AddressRecord)
    (cfg : Nat)
    (hrec : findAddrById st aId = some rec)
    (ht : rec.targets ≠ none) (hu : rec.user = none) :
    (∀ redis : RedisExec, getForwardedAddress st aId redis cfg ≠ .notFound) ∧
    (∀ t : Int, t < 0 →
      getForwardedAddress st aId (.ok none t) cfg =
        .info rec._id
          { allowed := if rec.forwards ≠ 0 then rec.forwards else if cfg ≠ 0 then cfg else MAX_FORWARDS,
            used := 0, ttl := .unbounded }) ∧
    (getForwardedAddress st aId .unavailable cfg =
      .info rec._id
        { allowed := if rec.forwards ≠ 0 then rec.forwards else if cfg ≠ 0 then cfg else MAX_FORWARDS,
          used := 0, ttl := .num 0 }) := by
  have hguard : ¬ (rec.targets = none ∨ rec.user.isSome = true) := by simp [ht, hu]
  refine ⟨?_, ?_, ?_⟩
  · intro redis
    simp only [getForwardedAddress, hrec]
    rw [if_neg hguard]
    simp
  · intro t htneg
    simp only [getForwardedAddress, hrec]
    rw [if_neg hguard, if_neg (show ¬ t ≥ 0 from by omega)]
    rfl
  · simp only [getForwardedAddress, hrec]
    rw [if_neg hguard]
    rfl

/-- C8 witness: on the forwarded record of `stFwd` (own quota 5), a
missing counter yields `used = 0` and the unbounded ttl, an unavailable
tracker yields `used = 0` and ttl `0`, and no tracker outcome makes the call
fail. -/
theorem C8_forwarding_status_witness :
    (∀ redis : RedisExec, getForwardedAddress stFwd 7 redis 0 ≠ .notFound) ∧
    (getForwardedAddress stFwd 7 (.ok none (-2)) 0 =
      .info 7 { allowed := 5, used := 0, ttl := .unbounded }) ∧
    (getForwardedAddress stFwd 7 .unavailable 0 =
      .info 7 { allowed := 5, used := 0, ttl := .num 0 }) := by
  have h := C8_forwarding_status stFwd 7
    { _id := 7, user := none, address := "user@x".toList, addrview := "user@x".toList, targets := some [], forwards := 5 }
    0 (by decide) (by decide) (by decide)
  exact ⟨h.1, h.2.1 (-2) (by decide), h.2.2⟩

/-- C8 counterexample to the claim as stated: with the tracker unavailable
the reported ttl is the number `0`, not the unbounded marker (`false` in the
JSON response), so "used = 0 with an unbounded ttl" fails for the
tracker-unavailable half of the claim. -/
theorem C8_forwarding_status_counterexample :
    getForwardedAddress stFwd 7 .unavailable 0 =
      .info 7 { allowed := 5, used := 0, ttl := .num 0 } ∧
    TtlValue.num 0 ≠ TtlValue.unbounded := by
  decide

/-! ## C9 -/

/-- The record inserted by the user-address creation path. -/
def insertedUserRec (u nid cr : Nat) (raw : List Char) : AddressRecord :=
  { _id := nid, user := some u, address := normalizeAddress raw,
    addrview := addrview (normalizeAddress raw), created := cr }

/-- C9: when the insert succeeds and either `main` was requested or the owner
has no default address yet, the handler attempts the owner update as a
best-effort step: whether that update succeeds (`uok = true`) or fails
(`uok = false`), the response is success with the new address id and the
inserted record is in the store — the insert is never rolled back; only the
owner's stored `address` field depends on the update outcome. -/
theorem C9_default_promotion_best_effort (st : DbState) (u : Nat)
    (raw : List Char) (main aw : Bool) (nid cr : Nat) (usr : UserDoc)
    (huser : findUser st u = some usr)
    (hplus : '+' ∉ normalizeAddress raw)
    (hstar : '*' ∉ normalizeAddress raw)
    (hfree : findAddrByView st (addrview (normalizeAddress raw)) = none)
    (hdef : usr.address = [] ∨ main = true) :
    ∀ uok : Bool,
      (postUserAddress st u raw main aw nid cr .ok uok).2 = .success (some nid) ∧
      (postUserAddress st u raw main aw nid cr .ok uok).1.addresses =
        st.addresses ++ [insertedUserRec u nid cr raw] ∧
      (uok = true → (postUserAddress st u raw main aw nid cr .ok uok).1.users =
        updateFirstUser st.users u (normalizeAddress raw)) ∧
      (uok = false → (postUserAddress st u raw main aw nid cr .ok uok).1.users = st.users) := by
  intro uok
  refine ⟨?_, ?_, ?_, ?_⟩
  · simp only [postUserAddress, huser, hfree]
    rw [if_neg hplus, if_neg (fun h => hstar h.1), if_neg (fun h => hstar h.1),
      if_neg (fun h => hstar h.1)]
  · simp only [postUserAddress, huser, hfree]
    rw [if_neg hplus, if_neg (fun h => hstar h.1), if_neg (fun h => hstar h.1),
      if_neg (fun h => hstar h.1)]
    split <;> rfl
  · intro huok
    subst huok
    simp only [postUserAddress, huser, hfree]
    rw [if_neg hplus, if_neg (fun h => hstar h.1), if_neg (fun h => hstar h.1),
      if_neg (fun h => hstar h.1), if_pos ⟨hdef, trivial⟩]
  · intro huok
    subst huok
    simp only [postUserAddress, huser, hfree]
    rw [if_neg hplus, if_neg (fun h => hstar h.1), if_neg (fun h => hstar h.1),
      if_neg (fun h => hstar h.1), if_neg (fun hx => Bool.false_ne_true hx.2)]

/-- C9 witness: creating `"b@y"` for the user of `stTwoAddr` with
`main = true`: with the owner update failing the call still succeeds and the
record is inserted, the owner's stored default staying as it was. -/
theorem C9_default_promotion_best_effort_witness :
    ((postUserAddress stTwoAddr 1 "b@y".toList true false 12 3 .ok false).2 =
      .success (some 12) ∧
    (postUserAddress stTwoAddr 1 "b@y".toList true false 12 3 .ok false).1.addresses =
      stTwoAddr.addresses ++ [insertedUserRec 1 12 3 "b@y".toList] ∧
    (false = true → (postUserAddress stTwoAddr 1 "b@y".toList true false 12 3 .ok false).1.users =
      updateFirstUser stTwoAddr.users 1 (normalizeAddress "b@y".toList)) ∧
    (false = false → (postUserAddress stTwoAddr 1 "b@y".toList true false 12 3 .ok false).1.users =
      stTwoAddr.users)) := by
  exact C9_default_promotion_best_effort stTwoAddr 1 "b@y".toList true false 12 3
    { _id := 1, address := "a@x".toList }
    (by decide) (by decide) (by decide) (by decide) (Or.inr rfl) false

/-! ## C10 -/

/-- C10: a forwarded-address update whose patch sets `forwards` to `0` is
handled identically to the same patch with no `forwards` key at all — the
`if (result.value.forwards)` truthiness guard drops the zero — so a non-zero
stored quota can never be reset to `0` through this operation while the rest
of the patch is still applied; in particular the found record's stored
`forwards` value is unchanged by such an update. -/
theorem C10_zero_forwards_ignored :
    (∀ (st : DbState) (aId : Nat) (ts : Option (List (List Char)))
        (ar : Option AutoreplyFields),
      putForwardedAddress st aId ts (some 0) ar = putForwardedAddress st aId ts none ar) ∧
    (∀ (st : DbState) (aId : Nat) (ar : Option AutoreplyFields) (rec : AddressRecord),
      findAddrById st aId = some rec → rec.targets ≠ none → rec.user = none →
      (findAddrById (putForwardedAddress st aId none (some 0) ar).1 aId).map
          (fun r => r.forwards) =
        some rec.forwards) := by
  constructor
  · intro st aId ts ar
    rfl
  · intro st aId ar rec hrec ht hu
    have hguard : ¬ (rec.targets = none ∨ rec.user.isSome = true) := by simp [ht, hu]
    have hid : rec._id = aId := by simpa using List.find?_some hrec
    simp only [putForwardedAddress, hrec]
    rw [if_neg hguard]
    simp only [findAddrById]
    rw [hid, find?_updateFirstAddr st.addresses aId
      (fun x => applyAddressUpdates x
        (if (0 : Nat) ≠ 0 then some 0 else none)
        (Option.map (fun raw => normalizeAutoreply raw (validateAutoreplyPUT raw)) ar) none)
      (fun r => rfl)]
    rw [show st.addresses.find? (fun r => r._id = aId) = some rec from hrec]
    simp [applyAddressUpdates]

/-- C10 witness: updating the forwarded record of `stFwd` (stored quota 5)
with a patch carrying `forwards = 0` equals the same patch without
`forwards`, and leaves the stored quota at 5. -/
theorem C10_zero_forwards_ignored_witness :
    (putForwardedAddress stFwd 7 none (some 0) none =
      putForwardedAddress stFwd 7 none none none) ∧
    (findAddrById (putForwardedAddress stFwd 7 none (some 0) none).1 7).map
        (fun r => r.forwards) =
      some 5 := by
  refine ⟨C10_zero_forwards_ignored.1 stFwd 7 none none, ?_⟩
  exact C10_zero_forwards_ignored.2 stFwd 7 none
    { _id := 7, user := none, address := "user@x".toList, addrview := "user@x".toList, targets := some [], forwards := 5 }
    (by decide) (by decide) (by decide)

end Wildduck
